import Mathlib

/-!
Shallow embedding of `server.py` (FastAPI relay of the pdchatter repository).

The server keeps a `ConnectionManager` with a dict of web-client sockets
keyed by user id and an optional single local-worker socket.  Two websocket
handlers drive it: `worker_websocket` (connects the worker, then forwards
every received JSON message to the addressed web client) and
`web_client_websocket` (registers the session under the path-supplied
`user_id`, sends one status message, then forwards every received JSON
message — with `user_id` stamped in — to the worker).

Modelling choices, each matching the Python line by line:
* a JSON message is modelled by the fields the server reads or writes:
  `type`, `data` (opaque payload text, `""` when the object has no such
  key) and an optional `user_id` string;
* a websocket is a `Channel`: an identity (`id`) plus a `broken` flag;
  `send_json` on a broken channel raises (starlette raises once the peer
  side is gone), modelled by the `WsError.sendFailure` outcome, while
  `receive_json` on a dropped peer raises `WebSocketDisconnect`, modelled
  as a `RecvResult.disconnect` element of the handler's input stream;
* each operation returns an `Outcome`: the state after the call, the list
  of `(channel id, message)` send events it performed, and `none` or the
  exception that escaped it.  Python state mutations made before an
  exception persist, so the state component is meaningful even on error.
-/

/-- A JSON envelope as the server reads it: discriminator `type`, opaque
payload `data` (empty string when absent) and optional `user_id`. -/
structure Msg where
  type : String
  data : String := ""
  user_id : Option String := none
  deriving DecidableEq, Repr

/-- A websocket: an identity for its peer plus whether sending on it
raises (the peer is gone but no `WebSocketDisconnect` was observed yet). -/
structure Channel where
  id : Nat
  broken : Bool := false
  deriving DecidableEq, Repr

/-- Exceptions of the transport layer: `WebSocketDisconnect` from
`receive_json`, and the runtime error `send_json` raises on a dead peer. -/
inductive WsError
  | disconnect
  | sendFailure
  deriving DecidableEq, Repr

/-- One element of a handler's input stream: either a received JSON
message or the `WebSocketDisconnect` raised by `receive_json`. -/
inductive RecvResult
  | msg (m : Msg)
  | disconnect
  deriving DecidableEq, Repr

/-- A performed `send_json`: target channel id and the message. -/
abbrev SendEvent := Nat × Msg

/-- The state of `ConnectionManager`: `web_clients` is the Python dict
(an insertion-ordered association list with unique keys), `local_worker`
the optional worker socket. -/
structure ConnectionManager where
  web_clients : List (String × Channel) := []
  local_worker : Option Channel := none
  deriving DecidableEq, Repr

/-- Result of running an operation: state afterwards, the send events it
performed in order, and the exception that escaped it, if any. -/
structure Outcome where
  mgr : ConnectionManager
  sent : List SendEvent
  err : Option WsError
  deriving DecidableEq, Repr

/-- Python dict assignment `d[k] = v`: replace the value of an existing
key in place, otherwise append the new entry. -/
def dictSet (d : List (String × Channel)) (k : String) (v : Channel) :
    List (String × Channel) :=
  match d with
  | [] => [(k, v)]
  | (k', v') :: rest =>
      if k' = k then (k, v) :: rest else (k', v') :: dictSet rest k v

/-- Python `del d[k]` restricted to a present key (the caller guards). -/
def dictDel (d : List (String × Channel)) (k : String) :
    List (String × Channel) :=
  match d with
  | [] => []
  | (k', v') :: rest =>
      if k' = k then rest else (k', v') :: dictDel rest k

/-- Python `d.get(k)` / `d[k]`: value of the first entry for `k`. -/
def dictGet (d : List (String × Channel)) (k : String) : Option Channel :=
  match d with
  | [] => none
  | (k', v') :: rest => if k' = k then some v' else dictGet rest k

/-- Python `k in d`. -/
def dictMem (d : List (String × Channel)) (k : String) : Bool :=
  match d with
  | [] => false
  | (k', _) :: rest => k' = k || dictMem rest k

/-- Python truthiness of `message.get("user_id")`: `None` and the empty
string are falsy. -/
def truthy : Option String → Bool
  | none => false
  | some s => s ≠ ""

/-- `data['user_id'] = user_id` (server.py line 86): add or overwrite. -/
def setUserId (m : Msg) (uid : String) : Msg :=
  { m with user_id := some uid }

/-- The status text broadcast when the worker connects. -/
def workerOnlineMsg : Msg :=
  { type := "status", data := "AI worker connected. Ready to upload." }

/-- The status text broadcast when the worker disconnects. -/
def workerOfflineMsg : Msg :=
  { type := "status", data := "AI worker disconnected. Please refresh." }

/-- The status text a session gets when it connects with no worker. -/
def waitingMsg : Msg :=
  { type := "status", data := "Waiting for local AI worker to connect..." }

/-- `for client in self.web_clients.values(): await client.send_json(m)`:
sends in dict order; a raise aborts the loop, later clients get nothing. -/
def notifyAll (clients : List Channel) (m : Msg) :
    List SendEvent × Option WsError :=
  match clients with
  | [] => ([], none)
  | c :: rest =>
      if c.broken then ([], some WsError.sendFailure)
      else
        let (evs, e) := notifyAll rest m
        ((c.id, m) :: evs, e)

/-- `ConnectionManager.connect_web_client` (lines 15-17): accept and
register, overwriting any previous socket for the same id. -/
def connect_web_client (mgr : ConnectionManager) (ws : Channel)
    (uid : String) : ConnectionManager :=
  { mgr with web_clients := dictSet mgr.web_clients uid ws }

/-- `ConnectionManager.connect_local_worker` (lines 19-24): accept, set
the worker slot unconditionally, then notify every registered client. -/
def connect_local_worker (mgr : ConnectionManager) (ws : Channel) :
    Outcome :=
  let mgr' := { mgr with local_worker := some ws }
  let (evs, e) := notifyAll (mgr'.web_clients.map Prod.snd) workerOnlineMsg
  ⟨mgr', evs, e⟩

/-- `ConnectionManager.disconnect_web_client` (lines 26-28): delete the
entry if present, no-op otherwise. -/
def disconnect_web_client (mgr : ConnectionManager) (uid : String) :
    ConnectionManager :=
  if dictMem mgr.web_clients uid then
    { mgr with web_clients := dictDel mgr.web_clients uid }
  else mgr

/-- `ConnectionManager.disconnect_local_worker` (lines 30-35): clear the
worker slot unconditionally (no check which worker the caller held), then
notify every registered client. -/
def disconnect_local_worker (mgr : ConnectionManager) : Outcome :=
  let mgr' := { mgr with local_worker := none }
  let (evs, e) := notifyAll (mgr'.web_clients.map Prod.snd) workerOfflineMsg
  ⟨mgr', evs, e⟩

/-- `ConnectionManager.forward_to_worker` (lines 37-41): send to the
worker if one is set, otherwise only print a log line. -/
def forward_to_worker (mgr : ConnectionManager) (m : Msg) : Outcome :=
  match mgr.local_worker with
  | some w =>
      if w.broken then ⟨mgr, [], some WsError.sendFailure⟩
      else ⟨mgr, [(w.id, m)], none⟩
  | none => ⟨mgr, [], none⟩

/-- `ConnectionManager.forward_to_web_client` (lines 43-48): read
`message.get("user_id")`; if truthy and registered, send the message
verbatim to that client's socket, otherwise only print a log line. -/
def forward_to_web_client (mgr : ConnectionManager) (m : Msg) : Outcome :=
  let uid := m.user_id
  if truthy uid && dictMem mgr.web_clients (uid.getD "") then
    match dictGet mgr.web_clients (uid.getD "") with
    | some c =>
        if c.broken then ⟨mgr, [], some WsError.sendFailure⟩
        else ⟨mgr, [(c.id, m)], none⟩
    | none => ⟨mgr, [], none⟩
  else ⟨mgr, [], none⟩

/-- Body of `worker_websocket`'s `while True` loop (lines 63-66): receive
a JSON message and forward it to the addressed web client; any raise
(disconnect from receive, send failure from forward) escapes the loop. -/
def workerRecvLoop (mgr : ConnectionManager) (inputs : List RecvResult) :
    Outcome :=
  match inputs with
  | [] => ⟨mgr, [], none⟩
  | RecvResult.disconnect :: _ => ⟨mgr, [], some WsError.disconnect⟩
  | RecvResult.msg m :: rest =>
      let o := forward_to_web_client mgr m
      match o.err with
      | some e => ⟨o.mgr, o.sent, some e⟩
      | none =>
          let o2 := workerRecvLoop o.mgr rest
          ⟨o2.mgr, o.sent ++ o2.sent, o2.err⟩

/-- `worker_websocket` (lines 58-68): connect the worker (before any
receive), then run the forwarding loop; only `WebSocketDisconnect` is
caught, triggering `disconnect_local_worker`; any other exception — in
particular a failed send to one client — escapes the handler. -/
def worker_websocket (mgr : ConnectionManager) (ws : Channel)
    (inputs : List RecvResult) : Outcome :=
  let o1 := connect_local_worker mgr ws
  match o1.err with
  | some e => ⟨o1.mgr, o1.sent, some e⟩
  | none =>
      let o2 := workerRecvLoop o1.mgr inputs
      match o2.err with
      | some WsError.disconnect =>
          let o3 := disconnect_local_worker o2.mgr
          ⟨o3.mgr, o1.sent ++ o2.sent ++ o3.sent, o3.err⟩
      | e => ⟨o2.mgr, o1.sent ++ o2.sent, e⟩

/-- Body of `web_client_websocket`'s `while True` loop (lines 82-87):
receive a JSON message, stamp `data['user_id'] = user_id`, forward it to
the worker; any raise escapes the loop. -/
def webRecvLoop (mgr : ConnectionManager) (uid : String)
    (inputs : List RecvResult) : Outcome :=
  match inputs with
  | [] => ⟨mgr, [], none⟩
  | RecvResult.disconnect :: _ => ⟨mgr, [], some WsError.disconnect⟩
  | RecvResult.msg m :: rest =>
      let o := forward_to_worker mgr (setUserId m uid)
      match o.err with
      | some e => ⟨o.mgr, o.sent, some e⟩
      | none =>
          let o2 := webRecvLoop o.mgr uid rest
          ⟨o2.mgr, o.sent ++ o2.sent, o2.err⟩

/-- Connect phase of `web_client_websocket` (lines 73-79): register the
session under the path-supplied id, then send it one status message
reflecting worker presence; with a worker present also forward a
`list_chats` request to the worker.  Runs before the `try` block. -/
def webConnectPhase (mgr : ConnectionManager) (ws : Channel)
    (uid : String) : Outcome :=
  let mgr1 := connect_web_client mgr ws uid
  match mgr1.local_worker with
  | none =>
      if ws.broken then ⟨mgr1, [], some WsError.sendFailure⟩
      else ⟨mgr1, [(ws.id, waitingMsg)], none⟩
  | some _ =>
      if ws.broken then ⟨mgr1, [], some WsError.sendFailure⟩
      else
        let o := forward_to_worker mgr1
          { type := "list_chats", user_id := some uid }
        ⟨o.mgr, (ws.id, workerOnlineMsg) :: o.sent, o.err⟩

/-- `web_client_websocket` (lines 70-90): connect phase, then the
forwarding loop; only `WebSocketDisconnect` is caught, triggering
`disconnect_web_client`; other exceptions escape without cleanup. -/
def web_client_websocket (mgr : ConnectionManager) (ws : Channel)
    (uid : String) (inputs : List RecvResult) : Outcome :=
  let o1 := webConnectPhase mgr ws uid
  match o1.err with
  | some e => ⟨o1.mgr, o1.sent, some e⟩
  | none =>
      let o2 := webRecvLoop o1.mgr uid inputs
      match o2.err with
      | some WsError.disconnect =>
          ⟨disconnect_web_client o2.mgr uid, o1.sent ++ o2.sent, none⟩
      | e => ⟨o2.mgr, o1.sent ++ o2.sent, e⟩

/-- Send events of an outcome addressed to a given channel id. -/
def sentTo (o : Outcome) (cid : Nat) : List Msg :=
  (o.sent.filter (fun ev => ev.1 = cid)).map Prod.snd

/-- Number of `error`-typed envelopes an outcome sent to a channel id. -/
def errorCountTo (o : Outcome) (cid : Nat) : Nat :=
  ((sentTo o cid).filter (fun m => m.type = "error")).length

/-! ### Helper lemmas about the dict model and the broadcast loop -/

/-- A broadcast over unbroken channels sends the message to every client
in order and raises nothing. -/
theorem notifyAll_ok (clients : List Channel) (m : Msg)
    (h : ∀ c ∈ clients, c.broken = false) :
    notifyAll clients m = (clients.map (fun c => (c.id, m)), none) := by
  induction clients with
  | nil => rfl
  | cons c rest ih =>
      have hc : c.broken = false := h c (by simp)
      have hrest : ∀ c' ∈ rest, c'.broken = false :=
        fun c' hc' => h c' (by simp [hc'])
      simp [notifyAll, hc, ih hrest]

/-- Looking up the key just assigned returns the assigned value. -/
theorem dictGet_set_self (d : List (String × Channel)) (k : String)
    (v : Channel) : dictGet (dictSet d k v) k = some v := by
  induction d with
  | nil => simp [dictSet, dictGet]
  | cons p rest ih =>
      by_cases hk : p.1 = k
      · simp [dictSet, hk, dictGet]
      · simp [dictSet, hk, dictGet, ih]

/-- Membership agrees with lookup success. -/
theorem dictMem_eq_isSome (d : List (String × Channel)) (k : String) :
    dictMem d k = (dictGet d k).isSome := by
  induction d with
  | nil => rfl
  | cons p rest ih =>
      by_cases hk : p.1 = k <;> simp [dictMem, dictGet, hk, ih]

/-- A key that is absent from the key list matches no entry. -/
theorem filter_keys_nil (d : List (String × Channel)) (k : String)
    (h : k ∉ d.map Prod.fst) : d.filter (fun p => p.1 = k) = [] := by
  induction d with
  | nil => rfl
  | cons p rest ih =>
      rw [List.map_cons] at h
      have h1 : ¬(p.1 = k) := fun he => h (by simp [he])
      have h2 : k ∉ rest.map Prod.fst := fun hm => h (by simp [hm])
      simp [List.filter_cons, h1, ih h2]

/-- Keys of the dict after an assignment. -/
theorem mem_keys_dictSet (d : List (String × Channel)) (k : String)
    (v : Channel) (x : String) :
    x ∈ (dictSet d k v).map Prod.fst ↔ x = k ∨ x ∈ d.map Prod.fst := by
  induction d with
  | nil => simp [dictSet]
  | cons p rest ih =>
      by_cases hk : p.1 = k
      · subst hk; simp [dictSet]
      · simp [dictSet, hk, ih]; tauto

/-- Assignment preserves uniqueness of keys. -/
theorem keys_nodup_dictSet (d : List (String × Channel)) (k : String)
    (v : Channel) (h : (d.map Prod.fst).Nodup) :
    ((dictSet d k v).map Prod.fst).Nodup := by
  induction d with
  | nil => simp [dictSet]
  | cons p rest ih =>
      rw [List.map_cons, List.nodup_cons] at h
      rcases h with ⟨hp, hrest⟩
      by_cases hk : p.1 = k
      · subst hk
        rw [show dictSet (p :: rest) p.1 v = (p.1, v) :: rest by
          simp [dictSet]]
        rw [List.map_cons, List.nodup_cons]
        exact ⟨hp, hrest⟩
      · rw [show dictSet (p :: rest) k v = p :: dictSet rest k v by
          simp [dictSet, hk]]
        rw [List.map_cons, List.nodup_cons]
        refine ⟨fun hmem => ?_, ih hrest⟩
        rcases (mem_keys_dictSet rest k v p.1).mp hmem with he | hm
        · exact hk he
        · exact hp hm

/-- With unique keys, an assignment leaves exactly one entry for its key. -/
theorem filter_dictSet (d : List (String × Channel)) (k : String)
    (v : Channel) (h : (d.map Prod.fst).Nodup) :
    (dictSet d k v).filter (fun p => p.1 = k) = [(k, v)] := by
  induction d with
  | nil => simp [dictSet]
  | cons p rest ih =>
      rw [List.map_cons, List.nodup_cons] at h
      rcases h with ⟨hp, hrest⟩
      by_cases hk : p.1 = k
      · subst hk
        simp [dictSet, List.filter_cons, filter_keys_nil rest p.1 hp]
      · simp [dictSet, hk, List.filter_cons, ih hrest]

/-- A message whose truthy `user_id` is registered on an unbroken channel
is delivered verbatim to exactly that channel, with no state change. -/
theorem forward_to_web_client_registered (mgr : ConnectionManager)
    (m : Msg) (uid : String) (c : Channel) (hm : m.user_id = some uid)
    (hu : uid ≠ "") (hc : dictGet mgr.web_clients uid = some c)
    (hcb : c.broken = false) :
    forward_to_web_client mgr m = ⟨mgr, [(c.id, m)], none⟩ := by
  simp [forward_to_web_client, hm, truthy, hu, dictMem_eq_isSome, hc, hcb]

/-- A message whose `user_id` is not registered is dropped silently. -/
theorem forward_to_web_client_absent (mgr : ConnectionManager) (m : Msg)
    (hm : dictMem mgr.web_clients (m.user_id.getD "") = false) :
    forward_to_web_client mgr m = ⟨mgr, [], none⟩ := by
  simp [forward_to_web_client, hm]

/-- With a live unbroken worker, the session read loop forwards every
received message, stamped with the session id, in order, raising
nothing and leaving the manager state unchanged. -/
theorem webRecvLoop_all_forwarded (mgr : ConnectionManager) (uid : String)
    (w : Channel) (hw : mgr.local_worker = some w) (hwb : w.broken = false)
    (msgs : List Msg) :
    webRecvLoop mgr uid (msgs.map RecvResult.msg)
      = ⟨mgr, msgs.map (fun m => (w.id, setUserId m uid)), none⟩ := by
  induction msgs with
  | nil => rfl
  | cons m rest ih => simp [webRecvLoop, forward_to_worker, hw, hwb, ih]

/-- The worker read loop delivers a block of messages addressed to one
registered unbroken session to that session's channel, in order. -/
theorem workerRecvLoop_all_delivered (mgr : ConnectionManager)
    (uid : String) (c : Channel) (hu : uid ≠ "")
    (hc : dictGet mgr.web_clients uid = some c) (hcb : c.broken = false)
    (msgs : List Msg) (hall : ∀ m ∈ msgs, m.user_id = some uid) :
    workerRecvLoop mgr (msgs.map RecvResult.msg)
      = ⟨mgr, msgs.map (fun m => (c.id, m)), none⟩ := by
  induction msgs with
  | nil => rfl
  | cons m rest ih =>
      have hm : m.user_id = some uid := hall m (by simp)
      have hrest : ∀ m' ∈ rest, m'.user_id = some uid :=
        fun m' hm' => hall m' (by simp [hm'])
      simp [workerRecvLoop,
        forward_to_web_client_registered mgr m uid c hm hu hc hcb, ih hrest]

/-! ### Claim theorems -/

/-- C1 counterexample: with session `bob` registered on channel 1 and no
worker connected, routing an `ask` envelope from `bob` raises nothing but
also sends `bob` zero `error` envelopes — not the exactly one the claim
requires. -/
theorem routeToWorker_no_error_envelope_cex :
    (dictGet ([("bob", ⟨1, false⟩)] : List (String × Channel)) "bob"
        = some ⟨1, false⟩) ∧
    ((⟨[("bob", ⟨1, false⟩)], none⟩ : ConnectionManager).local_worker
        = none) ∧
    ((forward_to_worker ⟨[("bob", ⟨1, false⟩)], none⟩
        ⟨"ask", "what is X", some "bob"⟩).err = none) ∧
    (errorCountTo (forward_to_worker ⟨[("bob", ⟨1, false⟩)], none⟩
        ⟨"ask", "what is X", some "bob"⟩) 1 = 0) ∧
    ¬(errorCountTo (forward_to_worker ⟨[("bob", ⟨1, false⟩)], none⟩
        ⟨"ask", "what is X", some "bob"⟩) 1 = 1) := by
  decide

/-- C1 amended: while no Worker Connection is present, routing an
envelope to the worker never raises, performs no send at all — in
particular the originating session receives no `error` envelope — and
leaves the manager state unchanged (the drop is only logged). -/
theorem routeToWorker_noWorker_drops_silently (mgr : ConnectionManager)
    (m : Msg) (cid : Nat) (h : mgr.local_worker = none) :
    forward_to_worker mgr m = ⟨mgr, [], none⟩ ∧
    errorCountTo (forward_to_worker mgr m) cid = 0 := by
  constructor
  · simp [forward_to_worker, h]
  · simp [forward_to_worker, h, errorCountTo, sentTo]

/-- C1 witness: the amended theorem applied at the concrete no-worker
state with `bob` registered. -/
theorem routeToWorker_noWorker_drops_silently_witness :
    ((⟨[("bob", ⟨1, false⟩)], none⟩ : ConnectionManager).local_worker
        = none) ∧
    (forward_to_worker ⟨[("bob", ⟨1, false⟩)], none⟩
        ⟨"ask", "what is X", some "bob"⟩
      = ⟨⟨[("bob", ⟨1, false⟩)], none⟩, [], none⟩) :=
  ⟨rfl, (routeToWorker_noWorker_drops_silently ⟨[("bob", ⟨1, false⟩)], none⟩
    ⟨"ask", "what is X", some "bob"⟩ 1 rfl).1⟩

/-- C2 counterexample: a candidate worker on channel 7 that sends no
handshake message at all (no secret, nothing within any timeout) is
nonetheless promoted to the sole Worker Connection and its connection is
not closed — the handler registers it before reading anything. -/
theorem worker_registered_without_handshake_cex :
    ((worker_websocket ⟨[], none⟩ ⟨7, false⟩ []).mgr.local_worker
        = some ⟨7, false⟩) ∧
    ((worker_websocket ⟨[], none⟩ ⟨7, false⟩ []).err = none) ∧
    ((worker_websocket ⟨[], none⟩ ⟨7, false⟩ []).sent = []) := by
  decide

/-- C2 amended: the gateway performs no handshake at all: every candidate
worker connection is promoted to the sole Worker Connection immediately
on connect, before any message is received; there is no shared-secret
check, no timeout and no policy-violation close, and a worker that sends
nothing remains registered with no exception raised. -/
theorem worker_promoted_unconditionally (mgr : ConnectionManager)
    (ws : Channel) (h : ∀ p ∈ mgr.web_clients, p.2.broken = false) :
    ((connect_local_worker mgr ws).mgr.local_worker = some ws) ∧
    ((worker_websocket mgr ws []).mgr.local_worker = some ws) ∧
    ((worker_websocket mgr ws []).err = none) := by
  have h2 : ∀ c ∈ mgr.web_clients.map Prod.snd, c.broken = false := by
    intro c hc
    rcases List.mem_map.mp hc with ⟨p, hp, rfl⟩
    exact h p hp
  have hn := notifyAll_ok (mgr.web_clients.map Prod.snd) workerOnlineMsg h2
  refine ⟨by simp [connect_local_worker, hn], ?_, ?_⟩ <;>
    simp [worker_websocket, connect_local_worker, workerRecvLoop, hn]

/-- C2 witness: the amended theorem at a state with one healthy client. -/
theorem worker_promoted_unconditionally_witness :
    (∀ p ∈ ([("carol", ⟨2, false⟩)] : List (String × Channel)),
        p.2.broken = false) ∧
    ((worker_websocket ⟨[("carol", ⟨2, false⟩)], none⟩ ⟨9, false⟩
        []).mgr.local_worker = some ⟨9, false⟩) :=
  ⟨by decide, (worker_promoted_unconditionally ⟨[("carol", ⟨2, false⟩)], none⟩
    ⟨9, false⟩ (by decide)).2.1⟩

/-- C3 counterexample: worker A (channel 1) connects, worker B (channel
2) connects and replaces A; then A's handler observes A's disconnect and
runs `disconnect_local_worker`, which clears the slot unconditionally —
the live worker B is gone even though B never disconnected. -/
theorem stale_disconnect_clears_live_worker_cex :
    ((connect_local_worker
        (connect_local_worker ⟨[], none⟩ ⟨1, false⟩).mgr
        ⟨2, false⟩).mgr.local_worker = some ⟨2, false⟩) ∧
    ((disconnect_local_worker
        (connect_local_worker
          (connect_local_worker ⟨[], none⟩ ⟨1, false⟩).mgr
          ⟨2, false⟩).mgr).mgr.local_worker = none) := by
  decide

/-- C3 amended: the manager holds at most one worker (a single optional
slot); a second worker connecting replaces the first atomically; but
disconnect handling is identity-blind: `disconnect_local_worker` clears
the slot unconditionally in every state, so the disconnect of a
previously replaced worker also clears the currently live worker. -/
theorem workerSlot_replace_and_blind_clear (mgr mgr2 : ConnectionManager)
    (w : Channel) :
    ((connect_local_worker mgr w).mgr.local_worker = some w) ∧
    ((connect_local_worker mgr w).mgr.web_clients = mgr.web_clients) ∧
    ((disconnect_local_worker mgr2).mgr.local_worker = none) := by
  refine ⟨?_, ?_, ?_⟩ <;> simp [connect_local_worker, disconnect_local_worker]

/-- C4 counterexample: with worker channel 9 live and `carol` registered
on channel 3, a `ping` sent by session `bob` is forwarded to the worker
(stamped with `bob`), and a worker-emitted `ping` addressed to `carol` is
delivered to `carol` rather than dropped. -/
theorem ping_is_forwarded_cex :
    ((webRecvLoop ⟨[("carol", ⟨3, false⟩)], some ⟨9, false⟩⟩ "bob"
        [RecvResult.msg ⟨"ping", "", none⟩]).sent
      = [(9, ⟨"ping", "", some "bob"⟩)]) ∧
    ((forward_to_web_client ⟨[("carol", ⟨3, false⟩)], some ⟨9, false⟩⟩
        ⟨"ping", "", some "carol"⟩).sent
      = [(3, ⟨"ping", "", some "carol"⟩)]) := by
  decide

/-- C4 amended: `ping` envelopes get no special treatment: a session's
`ping` is stamped with the session id and forwarded to the live worker
like any other envelope, and a worker-emitted `ping` whose `user_id` is
registered is delivered to that session rather than silently dropped. -/
theorem ping_not_special (mgr : ConnectionManager) (uid d cid : String)
    (w c : Channel) (hw : mgr.local_worker = some w)
    (hwb : w.broken = false) (hcid : cid ≠ "")
    (hc : dictGet mgr.web_clients cid = some c) (hcb : c.broken = false) :
    ((webRecvLoop mgr uid [RecvResult.msg ⟨"ping", d, none⟩]).sent
       = [(w.id, ⟨"ping", d, some uid⟩)]) ∧
    ((forward_to_web_client mgr ⟨"ping", d, some cid⟩).sent
       = [(c.id, ⟨"ping", d, some cid⟩)]) := by
  constructor
  · simp [webRecvLoop, forward_to_worker, hw, hwb, setUserId]
  · rw [forward_to_web_client_registered mgr ⟨"ping", d, some cid⟩ cid c
      rfl hcid hc hcb]

/-- C4 witness: the amended theorem at the concrete two-channel state. -/
theorem ping_not_special_witness :
    ((⟨[("carol", ⟨3, false⟩)], some ⟨9, false⟩⟩
        : ConnectionManager).local_worker = some ⟨9, false⟩) ∧
    ((webRecvLoop ⟨[("carol", ⟨3, false⟩)], some ⟨9, false⟩⟩ "bob"
        [RecvResult.msg ⟨"ping", "hi", none⟩]).sent
      = [(9, ⟨"ping", "hi", some "bob"⟩)]) :=
  ⟨rfl, (ping_not_special ⟨[("carol", ⟨3, false⟩)], some ⟨9, false⟩⟩
    "bob" "hi" "carol" ⟨9, false⟩ ⟨3, false⟩ rfl rfl (by decide) rfl
    rfl).1⟩

/-- C5 counterexample: the worker's forwarding read loop receives an
`answer_chunk` for `bob`, whose channel is broken; the failed send raises
out of the loop (`sendFailure`, which the handler's except-clause does
not catch), `carol`'s following message is never processed, and a
session's read loop likewise dies when the worker channel is broken. -/
theorem bad_session_kills_worker_loop_cex :
    ((workerRecvLoop
        ⟨[("bob", ⟨1, true⟩), ("carol", ⟨2, false⟩)], some ⟨9, false⟩⟩
        [RecvResult.msg ⟨"answer_chunk", "x", some "bob"⟩,
         RecvResult.msg ⟨"answer_chunk", "y", some "carol"⟩]).err
      = some WsError.sendFailure) ∧
    ((workerRecvLoop
        ⟨[("bob", ⟨1, true⟩), ("carol", ⟨2, false⟩)], some ⟨9, false⟩⟩
        [RecvResult.msg ⟨"answer_chunk", "x", some "bob"⟩,
         RecvResult.msg ⟨"answer_chunk", "y", some "carol"⟩]).sent
      = []) ∧
    ((webRecvLoop ⟨[], some ⟨9, true⟩⟩ "bob"
        [RecvResult.msg ⟨"ask", "q", none⟩]).err
      = some WsError.sendFailure) := by
  decide

/-- C5 amended: a per-message delivery failure is not contained: a failed
send to one registered session's channel raises out of
`forward_to_web_client` and terminates the worker's forwarding read loop
with an uncaught `sendFailure` before any later message is processed, and
a failed send to the worker likewise terminates the sending session's
read loop; only a `WebSocketDisconnect` from the handler's own receive is
caught. -/
theorem delivery_failure_kills_loops (mgr mgr2 : ConnectionManager)
    (uid uid2 : String) (c w : Channel) (m m2 : Msg)
    (rest rest2 : List RecvResult) (hu : uid ≠ "")
    (hc : dictGet mgr.web_clients uid = some c) (hcb : c.broken = true)
    (hm : m.user_id = some uid) (hw : mgr2.local_worker = some w)
    (hwb : w.broken = true) :
    (workerRecvLoop mgr (RecvResult.msg m :: rest)
      = ⟨mgr, [], some WsError.sendFailure⟩) ∧
    (webRecvLoop mgr2 uid2 (RecvResult.msg m2 :: rest2)
      = ⟨mgr2, [], some WsError.sendFailure⟩) := by
  constructor
  · simp [workerRecvLoop, forward_to_web_client, hm, truthy, hu,
      dictMem_eq_isSome, hc, hcb]
  · simp [webRecvLoop, forward_to_worker, hw, hwb]

/-- C5 witness: the amended theorem at a concrete state with `bob` on a
broken channel and a broken worker channel. -/
theorem delivery_failure_kills_loops_witness :
    ("bob" ≠ "") ∧
    (workerRecvLoop ⟨[("bob", ⟨1, true⟩)], some ⟨9, false⟩⟩
        [RecvResult.msg ⟨"answer_chunk", "x", some "bob"⟩]
      = ⟨⟨[("bob", ⟨1, true⟩)], some ⟨9, false⟩⟩, [],
          some WsError.sendFailure⟩) :=
  ⟨by decide, (delivery_failure_kills_loops
    ⟨[("bob", ⟨1, true⟩)], some ⟨9, false⟩⟩ ⟨[], some ⟨9, true⟩⟩
    "bob" "bob" ⟨1, true⟩ ⟨9, true⟩ ⟨"answer_chunk", "x", some "bob"⟩
    ⟨"ask", "q", none⟩ [] [] (by decide) rfl rfl rfl rfl rfl).1⟩

/-- C6 counterexample: session `alice` connecting to a worker-less
gateway is registered immediately (no identity-resolution step exists)
and the only envelope the server sends her is a `status` one — no
`auth_success` envelope is ever emitted. -/
theorem no_auth_success_envelope_cex :
    ((web_client_websocket ⟨[], none⟩ ⟨5, false⟩ "alice" []).mgr.web_clients
      = [("alice", ⟨5, false⟩)]) ∧
    ((web_client_websocket ⟨[], none⟩ ⟨5, false⟩ "alice" []).sent
      = [(5, waitingMsg)]) ∧
    (waitingMsg.type = "status") ∧
    (((web_client_websocket ⟨[], none⟩ ⟨5, false⟩ "alice" []).sent.filter
        (fun ev => ev.2.type = "auth_success")) = []) := by
  decide

/-- C6 amended: there is no identity resolution: the session identifier
is taken verbatim from the connection path and the session is registered
immediately on connect; the server then sends it a `status` envelope
reflecting current worker presence (plus, with a worker live, a
`list_chats` request to the worker), and no envelope of type
`auth_success` is ever sent. -/
theorem session_connect_sends_status_only (mgr : ConnectionManager)
    (ws : Channel) (uid : String) (hb : ws.broken = false) :
    (dictGet (webConnectPhase mgr ws uid).mgr.web_clients uid = some ws) ∧
    (mgr.local_worker = none →
      (webConnectPhase mgr ws uid).sent = [(ws.id, waitingMsg)]) ∧
    (∀ w, mgr.local_worker = some w → w.broken = false →
      (webConnectPhase mgr ws uid).sent
        = [(ws.id, workerOnlineMsg), (w.id, ⟨"list_chats", "", some uid⟩)]) ∧
    (∀ ev ∈ (webConnectPhase mgr ws uid).sent, ev.2.type ≠ "auth_success") := by
  refine ⟨?_, ?_, ?_, ?_⟩
  · rcases hl : mgr.local_worker with _ | w
    · simp [webConnectPhase, connect_web_client, hl, hb, dictGet_set_self]
    · by_cases hwb : w.broken <;>
        simp [webConnectPhase, connect_web_client, forward_to_worker, hl,
          hb, hwb, dictGet_set_self]
  · intro hl
    simp [webConnectPhase, connect_web_client, hl, hb]
  · intro w hl hwb
    simp [webConnectPhase, connect_web_client, forward_to_worker, hl, hb,
      hwb]
  · intro ev hev
    rcases hl : mgr.local_worker with _ | w
    · simp [webConnectPhase, connect_web_client, hl, hb] at hev
      simp [hev, waitingMsg]
    · by_cases hwb : w.broken <;>
        simp [webConnectPhase, connect_web_client, forward_to_worker, hl,
          hb, hwb] at hev
      · simp [hev, workerOnlineMsg]
      · rcases hev with hev | hev <;> simp [hev, workerOnlineMsg]

/-- C6 witness: the amended theorem at the concrete worker-less state. -/
theorem session_connect_sends_status_only_witness :
    ((⟨5, false⟩ : Channel).broken = false) ∧
    (dictGet (webConnectPhase ⟨[], none⟩ ⟨5, false⟩ "alice").mgr.web_clients
        "alice" = some ⟨5, false⟩) :=
  ⟨rfl, (session_connect_sends_status_only ⟨[], none⟩ ⟨5, false⟩ "alice"
    rfl).1⟩

/-- C7 (confirmed): with a live unbroken worker, the session read loop
forwards every received envelope to the worker with `user_id` set to the
session's identifier — added or overwritten, whatever the client put
there — and the worker receives the envelopes in exactly the session's
send order. -/
theorem session_msgs_tagged_and_ordered (mgr : ConnectionManager)
    (uid : String) (w : Channel) (msgs : List Msg) (m : Msg)
    (hw : mgr.local_worker = some w) (hwb : w.broken = false) :
    ((webRecvLoop mgr uid (msgs.map RecvResult.msg)).sent
      = msgs.map (fun m' => (w.id, setUserId m' uid))) ∧
    ((setUserId m uid).user_id = some uid) := by
  refine ⟨?_, rfl⟩
  rw [webRecvLoop_all_forwarded mgr uid w hw hwb msgs]

/-- C7 witness: the end-to-end upload scenario: `alice` sends
`upload_start`, `upload_chunk`, `upload_end`; the worker receives the
three envelopes in that exact order, each tagged `user_id = alice`. -/
theorem session_msgs_tagged_and_ordered_witness :
    ((⟨[("alice", ⟨4, false⟩)], some ⟨9, false⟩⟩
        : ConnectionManager).local_worker = some ⟨9, false⟩) ∧
    ((webRecvLoop ⟨[("alice", ⟨4, false⟩)], some ⟨9, false⟩⟩ "alice"
        [RecvResult.msg ⟨"upload_start", "a.pdf", none⟩,
         RecvResult.msg ⟨"upload_chunk", "AAAA", none⟩,
         RecvResult.msg ⟨"upload_end", "", none⟩]).sent
      = [(9, ⟨"upload_start", "a.pdf", some "alice"⟩),
         (9, ⟨"upload_chunk", "AAAA", some "alice"⟩),
         (9, ⟨"upload_end", "", some "alice"⟩)]) := by
  refine ⟨rfl, ?_⟩
  have h := (session_msgs_tagged_and_ordered
    ⟨[("alice", ⟨4, false⟩)], some ⟨9, false⟩⟩ "alice" ⟨9, false⟩
    [⟨"upload_start", "a.pdf", none⟩, ⟨"upload_chunk", "AAAA", none⟩,
     ⟨"upload_end", "", none⟩] ⟨"x", "", none⟩ rfl rfl).1
  simpa [setUserId] using h

/-- C8 (confirmed): for a worker-emitted envelope carrying a (truthy)
session identifier, the dispatcher forwards it verbatim to exactly the
registered channel for that identifier with no state change (nothing
buffered); when the identifier is unregistered the envelope is dropped
with only a log line; and a block of envelopes addressed to one
registered session is delivered to that session's channel alone, in the
worker's emission order.  Session identifiers are nonempty in every
reachable state, since they come from a nonempty path segment. -/
theorem routeToSession_verbatim_or_dropped (mgr : ConnectionManager)
    (uid : String) (m : Msg) (h1 : m.user_id = some uid) (h2 : uid ≠ "") :
    (∀ c, dictGet mgr.web_clients uid = some c → c.broken = false →
      forward_to_web_client mgr m = ⟨mgr, [(c.id, m)], none⟩) ∧
    (dictGet mgr.web_clients uid = none →
      forward_to_web_client mgr m = ⟨mgr, [], none⟩) ∧
    (∀ (c : Channel) (msgs : List Msg),
      dictGet mgr.web_clients uid = some c → c.broken = false →
      (∀ m' ∈ msgs, m'.user_id = some uid) →
      workerRecvLoop mgr (msgs.map RecvResult.msg)
        = ⟨mgr, msgs.map (fun m' => (c.id, m')), none⟩) := by
  refine ⟨?_, ?_, ?_⟩
  · intro c hc hcb
    exact forward_to_web_client_registered mgr m uid c h1 h2 hc hcb
  · intro hnone
    refine forward_to_web_client_absent mgr m ?_
    simp [h1, dictMem_eq_isSome, hnone]
  · intro c msgs hc hcb hall
    exact workerRecvLoop_all_delivered mgr uid c h2 hc hcb msgs hall

/-- C8 witness: the end-to-end fan-out scenario: the worker streams three
`answer_chunk` envelopes and one `answer_end` for `carol` while `carol`
(channel 3) and `dave` (channel 4) are registered; `carol`'s channel
receives the four envelopes in order, unmodified, and `dave`'s channel
(id 4) receives none of them. -/
theorem routeToSession_verbatim_or_dropped_witness :
    ((⟨"answer_chunk", "t1", some "carol"⟩ : Msg).user_id = some "carol") ∧
    ("carol" ≠ "") ∧
    (workerRecvLoop ⟨[("carol", ⟨3, false⟩), ("dave", ⟨4, false⟩)], some ⟨9, false⟩⟩
        [RecvResult.msg ⟨"answer_chunk", "t1", some "carol"⟩,
         RecvResult.msg ⟨"answer_chunk", "t2", some "carol"⟩,
         RecvResult.msg ⟨"answer_chunk", "t3", some "carol"⟩,
         RecvResult.msg ⟨"answer_end", "", some "carol"⟩]
      = ⟨⟨[("carol", ⟨3, false⟩), ("dave", ⟨4, false⟩)], some ⟨9, false⟩⟩,
          [(3, ⟨"answer_chunk", "t1", some "carol"⟩),
           (3, ⟨"answer_chunk", "t2", some "carol"⟩),
           (3, ⟨"answer_chunk", "t3", some "carol"⟩),
           (3, ⟨"answer_end", "", some "carol"⟩)], none⟩) := by
  refine ⟨rfl, by decide, ?_⟩
  have h := (routeToSession_verbatim_or_dropped
    ⟨[("carol", ⟨3, false⟩), ("dave", ⟨4, false⟩)], some ⟨9, false⟩⟩
    "carol" ⟨"answer_chunk", "t1", some "carol"⟩ rfl (by decide)).2.2
    ⟨3, false⟩
    [⟨"answer_chunk", "t1", some "carol"⟩,
     ⟨"answer_chunk", "t2", some "carol"⟩,
     ⟨"answer_chunk", "t3", some "carol"⟩,
     ⟨"answer_end", "", some "carol"⟩] rfl rfl (by decide)
  simpa using h

/-- C9 (confirmed): registering the same identifier twice leaves the
second channel as the unique entry for it (last connection wins, the
duplicate is not rejected), and deregistering an absent identifier is a
no-op.  The unique-keys hypothesis is the dict invariant, preserved by
every registry operation. -/
theorem registry_last_writer_wins (mgr : ConnectionManager) (id : String)
    (c1 c2 : Channel) (hnd : (mgr.web_clients.map Prod.fst).Nodup) :
    (dictGet (connect_web_client (connect_web_client mgr c1 id)
        c2 id).web_clients id = some c2) ∧
    (((connect_web_client (connect_web_client mgr c1 id)
          c2 id).web_clients.filter (fun p => p.1 = id)).map Prod.snd
      = [c2]) ∧
    (dictMem mgr.web_clients id = false →
      disconnect_web_client mgr id = mgr) := by
  refine ⟨?_, ?_, ?_⟩
  · simp [connect_web_client, dictGet_set_self]
  · have hnd1 : ((dictSet mgr.web_clients id c1).map Prod.fst).Nodup :=
      keys_nodup_dictSet mgr.web_clients id c1 hnd
    simp [connect_web_client,
      filter_dictSet (dictSet mgr.web_clients id c1) id c2 hnd1]
  · intro hmem
    simp [disconnect_web_client, hmem]

/-- C9 witness: the theorem at a concrete registry holding `x`, with
`bob` registered twice. -/
theorem registry_last_writer_wins_witness :
    ((([("x", ⟨1, false⟩)] : List (String × Channel)).map Prod.fst).Nodup) ∧
    (dictGet (connect_web_client
        (connect_web_client ⟨[("x", ⟨1, false⟩)], none⟩ ⟨2, false⟩ "bob")
        ⟨3, false⟩ "bob").web_clients "bob" = some ⟨3, false⟩) :=
  ⟨by decide, (registry_last_writer_wins ⟨[("x", ⟨1, false⟩)], none⟩ "bob"
    ⟨2, false⟩ ⟨3, false⟩ (by decide)).1⟩

/-- C10 (confirmed): when a worker connects, every registered client (all
on healthy channels) is sent the worker-online status envelope, and when
`disconnect_local_worker` runs, every registered client is sent the
worker-offline status envelope; a session connecting afterwards receives
at its own connect exactly one status envelope reflecting the current
worker presence. -/
theorem worker_presence_broadcast (mgr : ConnectionManager) (ws : Channel)
    (uid : String) (h : ∀ p ∈ mgr.web_clients, p.2.broken = false)
    (hws : ws.broken = false) :
    ((connect_local_worker mgr ws).sent
      = mgr.web_clients.map (fun p => (p.2.id, workerOnlineMsg))) ∧
    ((disconnect_local_worker mgr).sent
      = mgr.web_clients.map (fun p => (p.2.id, workerOfflineMsg))) ∧
    (mgr.local_worker = none →
      sentTo (webConnectPhase mgr ws uid) ws.id = [waitingMsg]) ∧
    (∀ w, mgr.local_worker = some w → w.broken = false → w.id ≠ ws.id →
      sentTo (webConnectPhase mgr ws uid) ws.id = [workerOnlineMsg]) := by
  have h2 : ∀ c ∈ mgr.web_clients.map Prod.snd, c.broken = false := by
    intro c hc
    rcases List.mem_map.mp hc with ⟨p, hp, rfl⟩
    exact h p hp
  refine ⟨?_, ?_, ?_, ?_⟩
  · simp [connect_local_worker,
      notifyAll_ok (mgr.web_clients.map Prod.snd) workerOnlineMsg h2]
  · simp [disconnect_local_worker,
      notifyAll_ok (mgr.web_clients.map Prod.snd) workerOfflineMsg h2]
  · intro hl
    simp [webConnectPhase, connect_web_client, hl, hws, sentTo]
  · intro w hl hwb hne
    simp [webConnectPhase, connect_web_client, forward_to_worker, hl,
      hws, hwb, sentTo, List.filter_cons, hne]

/-- C10 witness: the theorem at a state with `carol` registered and no
worker: the connect broadcast reaches `carol` and a session connecting
on channel 5 receives the waiting status. -/
theorem worker_presence_broadcast_witness :
    (∀ p ∈ ([("carol", ⟨2, false⟩)] : List (String × Channel)),
        p.2.broken = false) ∧
    ((⟨5, false⟩ : Channel).broken = false) ∧
    ((connect_local_worker ⟨[("carol", ⟨2, false⟩)], none⟩ ⟨9, false⟩).sent
      = [(2, workerOnlineMsg)]) :=
  ⟨by decide, rfl, by
    have h := (worker_presence_broadcast ⟨[("carol", ⟨2, false⟩)], none⟩
      ⟨9, false⟩ "eve" (by decide) rfl).1
    simpa using h⟩
